import Mathlib

/-!
Verification of the B-roll generation pipeline (models.py, agents.py, config.py).

The two generative-service call sites are modelled as oracles: a
`FeasService` maps a scene description to the outcome of the feasibility
request (either an exception or a parsed JSON object), and a
`DecompService` maps the decomposition request to its outcome (exception,
malformed JSON, or a JSON array of loosely structured beat objects).
JSON numbers are modelled as exact rationals; JSON string fields that may
be absent are modelled as `Option String`.
-/

namespace Brollbot

/-! ## Data model (src/models.py) -/

/-- Configured script length bounds (config.py defaults, models.py Field). -/
def MIN_SCRIPT_LENGTH : Nat := 10

/-- Configured maximum script length (config.py default, models.py Field). -/
def MAX_SCRIPT_LENGTH : Nat := 5000

/-- The `tone` Literal values of `AdScriptInput` (models.py line 7). -/
def validTones : List String :=
  ["inspiring", "urgent", "calm", "funny", "serious", "emotional", "uplifting", "mysterious"]

/-- The `format` Literal values of `AdScriptInput` (models.py line 8). -/
def validFormats : List String :=
  ["UGC", "talking_head", "testimonial"]

/-- A validated `AdScriptInput` (models.py). The stored script is the
stripped text, as returned by the `validate_script` validator. -/
structure AdScriptInput where
  script : String
  tone : String
  format : String
deriving DecidableEq

/-- Construction of an `AdScriptInput`: pydantic checks the Field length
bounds on the raw string, the `validate_script` validator rejects
empty/whitespace-only scripts and strips the rest, and the two Literal
fields must be among the enumerated values. Any violation raises a
validation error, modelled as `none`. -/
def AdScriptInput.build (script tone format : String) : Option AdScriptInput :=
  if MIN_SCRIPT_LENGTH ≤ script.length ∧ script.length ≤ MAX_SCRIPT_LENGTH then
    if script.trim = "" then none
    else if tone ∈ validTones ∧ format ∈ validFormats then
      some ⟨script.trim, tone, format⟩
    else none
  else none

/-- A validated `SceneBeat` (models.py). -/
structure SceneBeat where
  timestamp : String
  scene_description : String
  emotion : String
  script_excerpt : String
deriving DecidableEq

/-- One loosely structured beat object from the generative reply (a JSON
object whose fields may be absent). -/
structure RawBeat where
  timestamp : Option String
  scene_description : Option String
  emotion : Option String
  script_excerpt : Option String
deriving DecidableEq

/-- `SceneBeat(**beat_data)`: every field is required; `scene_description`
has `min_length=10`; the `validate_timestamp` validator rejects a
timestamp that is empty or has no ':' in it. `emotion` and
`script_excerpt` are required strings with no further constraint. -/
def SceneBeat.build (b : RawBeat) : Option SceneBeat :=
  match b.timestamp, b.scene_description, b.emotion, b.script_excerpt with
  | some ts, some sd, some em, some se =>
    if ts ≠ "" ∧ ':' ∈ ts.data then
      if 10 ≤ sd.length then some ⟨ts, sd, em, se⟩ else none
    else none
  | _, _, _, _ => none

/-- A validated `BrollPrompt` (models.py). `duration` is an int bounded
1–30 and `confidence_score`, when present, must lie in [0, 1]. -/
structure BrollPrompt where
  prompt : String
  duration : Int
  aspect_ratio : String
  insert_after : String
  search_instruction : String
  confidence_score : Option ℚ
deriving DecidableEq

/-- `BrollPrompt(...)` construction with its pydantic Field checks:
`ge=1, le=30` on `duration` and `ge=0.0, le=1.0` on `confidence_score`.
A violation raises a validation error, modelled as `none`. -/
def BrollPrompt.build (prompt : String) (duration : Int) (aspect_ratio : String)
    (insert_after : String) (search_instruction : String) (confidence_score : Option ℚ) :
    Option BrollPrompt :=
  if 1 ≤ duration ∧ duration ≤ 30 then
    match confidence_score with
    | some c =>
      if 0 ≤ c ∧ c ≤ 1 then
        some ⟨prompt, duration, aspect_ratio, insert_after, search_instruction, some c⟩
      else none
    | none =>
      some ⟨prompt, duration, aspect_ratio, insert_after, search_instruction, none⟩
  else none

/-! ## Prompt Builder (agents.py `_get_system_prompt`) -/

/-- The static base template of `_get_system_prompt` (agents.py lines 27-65). -/
def base_prompt : String :=
  "\nYou are a B-roll specialist for high-converting social media ads.\n\nCreate short, simple scene descriptions that:\n- Grab attention in first 3 seconds\n- Support direct response marketing goals\n- Work well for AI video generation (Runway, Pika, Kling)\n- Are optimized for mobile viewing\n\nFor each moment, output:\n- A timestamp (every 3-5 seconds)\n- A SIMPLE, clear scene description (under 15 words)\n- The marketing emotion it triggers (frustrated, excited, happy, amazed, etc.)\n- The script excerpt it supports\n\nKEY SCENE TYPES:\n- Problem moments (frustration, struggle)\n- Solution reveals (product in action)\n- Transformation (before/after)\n- Social proof (happy customers)\n- Urgency (timers, scarcity)\n\nKEEP DESCRIPTIONS SIMPLE:\n✅ GOOD: \"Person frustrated with phone\"\n✅ GOOD: \"Happy customer holding product\"\n✅ GOOD: \"Before and after comparison\"\n❌ BAD: \"Close-up of person's disillusioned face as they futilely make cold calls\"\n\nRespond only in raw JSON format:\n\n[\n  \x7b\n    \"timestamp\": \"00:00\",\n    \"scene_description\": \"Person looking frustrated at phone\",\n    \"emotion\": \"frustrated\",\n    \"script_excerpt\": \"Tired of cold calling?\"\n  \x7d\n]\n"

/-- The simplified direct-response tone-guidance table inlined in
`_get_system_prompt` (agents.py lines 68-76). -/
def dr_tone_guidance : List (String × String) :=
  [("hook", "Create simple attention-grabbing moments"),
   ("problem", "Show clear frustration or struggle"),
   ("solution", "Display product solving the problem"),
   ("social_proof", "Show happy customers or testimonials"),
   ("urgency", "Include countdown or scarcity elements"),
   ("transformation", "Before and after moments"),
   ("curiosity", "Partial reveals or mysterious elements")]

/-- The simplified direct-response format-guidance table inlined in
`_get_system_prompt` (agents.py lines 79-83). -/
def dr_format_guidance : List (String × String) :=
  [("UGC", "Authentic, user-generated style footage"),
   ("talking_head", "Speaker with engaging gestures"),
   ("testimonial", "Real customer reactions and success stories")]

/-- The TONE STRATEGY text appended to the base prompt when
`dr_tone_guidance.get(tone, "")` is non-empty. -/
def tone_addition (tone : String) : String :=
  let tone_guide := (dr_tone_guidance.lookup tone).getD ""
  if tone_guide ≠ "" then "\n\nTONE STRATEGY: " ++ tone_guide else ""

/-- The FORMAT STRATEGY text appended to the base prompt when
`dr_format_guidance.get(format_type, "")` is non-empty. -/
def format_addition (format_type : String) : String :=
  let format_guide := (dr_format_guidance.lookup format_type).getD ""
  if format_guide ≠ "" then "\nFORMAT STRATEGY: " ++ format_guide else ""

/-- The platform-optimization examples appended last (agents.py lines 94-104). -/
def examples_addition : String :=
  "\n\nEXAMPLES OF GOOD SCENE DESCRIPTIONS:\n- \"Person frustrated with laptop\"\n- \"Product reveal close-up\"\n- \"Happy customer testimonial\"\n- \"Before and after split screen\"\n- \"Countdown timer on phone\"\n- \"Money being saved\"\n- \"Problem being solved\"\n"

/-- `_get_system_prompt`: the base template with the tone, format and
examples additions appended in order. -/
def get_system_prompt (tone format_type : String) : String :=
  base_prompt ++ tone_addition tone ++ format_addition format_type ++ examples_addition

/-! ## Feasibility Assessor (agents.py `_assess_generation_feasibility`) -/

/-- The ways the feasibility request can raise: the reply body is not
valid JSON, the service call errors, or it times out. -/
inductive FeasError
  | malformedReply
  | serviceError
  | timeout
deriving DecidableEq

/-- A parsed feasibility reply object; either field may be absent
(`result.get` is used with a default). `confidence` is an arbitrary JSON
number. -/
structure FeasObj where
  feasible : Option Bool
  confidence : Option ℚ
deriving DecidableEq

/-- Outcome of one feasibility request: an exception, or a JSON object. -/
inductive FeasReply
  | failure (e : FeasError)
  | ok (obj : FeasObj)
deriving DecidableEq

/-- Oracle for the generative service on feasibility requests, keyed by
the scene description sent as the user message. -/
def FeasService : Type := String → FeasReply

/-- `_assess_generation_feasibility`: on any exception return the default
`(True, 0.7)`; otherwise return
`(result.get("feasible", False), result.get("confidence", 0.0))`. -/
def assess_generation_feasibility (svc : FeasService) (scene_description : String) :
    Bool × ℚ :=
  match svc scene_description with
  | .failure _ => (true, 7/10)
  | .ok obj => (obj.feasible.getD false, obj.confidence.getD 0)

/-! ## Prompt Synthesizer (agents.py `generate_prompts`) -/

/-- The static emotion-normalization table inlined in `generate_prompts`. -/
def emotion_map : List (String × String) :=
  [("problem_hook", "frustrated"),
   ("solution", "satisfied"),
   ("social_proof", "happy"),
   ("urgency", "excited"),
   ("transformation", "amazed"),
   ("curiosity", "intrigued")]

/-- `emotion_map.get(beat.emotion, beat.emotion)`: an unmapped emotion
passes through unchanged. -/
def naturalEmotion (emotion : String) : String :=
  (emotion_map.lookup emotion).getD emotion

/-- The loop body of `generate_prompts` for one `beat_data` dict: validate
the beat, assess feasibility, apply the `is_feasible and confidence > 0.4`
gate, and construct the `BrollPrompt`. Any exception in the body — a beat
failing `SceneBeat` validation or the `BrollPrompt` construction failing
its own Field checks — is caught and the beat is skipped (`none`). -/
def processBeat (svc : FeasService) (duration : Int) (aspect_ratio : String)
    (beat_data : RawBeat) : Option BrollPrompt :=
  match SceneBeat.build beat_data with
  | none => none
  | some beat =>
    let r := assess_generation_feasibility svc beat.scene_description
    if r.1 = true ∧ 2/5 < r.2 then
      let natural_emotion := naturalEmotion beat.emotion
      let formatted_prompt := beat.scene_description ++ ", " ++ natural_emotion ++ ", cinematic"
      let search_instruction :=
        "Search for: " ++ beat.scene_description ++ " showing " ++ natural_emotion ++ " emotion"
      BrollPrompt.build formatted_prompt duration aspect_ratio beat.script_excerpt
        search_instruction (some r.2)
    else none

/-- `generate_prompts(beats_data, duration=None, aspect_ratio=None)`:
default the parameters (3 seconds, "9:16"), then process the beats in
input order, keeping the prompts of the beats that survive. -/
def generate_prompts (svc : FeasService) (beats_data : List RawBeat)
    (duration : Option Int) (aspect_ratio : Option String) : List BrollPrompt :=
  beats_data.filterMap (processBeat svc (duration.getD 3) (aspect_ratio.getD "9:16"))

/-! ## Beat Parser (agents.py `parse_script`) -/

/-- Outcome of one decomposition request: the call raised (service error
or timeout), the reply body was not valid JSON, or it was a JSON array of
beat objects. -/
inductive DecompReply
  | raised
  | malformed
  | beats (bs : List RawBeat)
deriving DecidableEq

/-- Oracle for the generative service on decomposition requests, keyed by
the (script, tone, format) triple sent in the prompts. -/
def DecompService : Type := String → String → String → DecompReply

/-- Error classification surfaced to the caller by `parse_script` via
`st.error`: the JSONDecodeError branch ("not in the expected format") or
the generic exception branch ("temporarily unavailable"). -/
inductive PipelineError
  | parseFailure
  | serviceUnavailable
deriving DecidableEq

/-- The value-and-message outcome of one `parse_script` call. -/
structure ParseScriptResult where
  beats : Option (List SceneBeat)
  error : Option PipelineError
deriving DecidableEq

/-- `parse_script`: call the service; on JSONDecodeError return `None`
with the parse-failure message; on any other exception return `None` with
the unavailable message; otherwise validate each element independently,
silently dropping invalid ones. -/
def parse_script (svc : DecompService) (script tone format_type : String) :
    ParseScriptResult :=
  match svc script tone format_type with
  | .raised => ⟨none, some .serviceUnavailable⟩
  | .malformed => ⟨none, some .parseFailure⟩
  | .beats bs => ⟨some (bs.filterMap SceneBeat.build), none⟩

/-! ## Theorems -/

/-- C2: for every scene description, if the generative-service call inside
the Feasibility Assessor raises in any way (malformed/non-JSON reply,
service error, or timeout), the assessor propagates no error and returns
exactly the pair (feasible = true, confidence = 0.7). -/
theorem assess_feasibility_failure_default (svc : FeasService) (s : String)
    (e : FeasError) (h : svc s = .failure e) :
    assess_generation_feasibility svc s = (true, 7/10) := by
  simp [assess_generation_feasibility, h]

/-- A feasibility service whose call always times out. -/
def timeoutService : FeasService := fun _ => .failure .timeout

/-- Witness for C2 at a concrete timed-out call. -/
theorem assess_feasibility_failure_default_witness :
    assess_generation_feasibility timeoutService "Person frustrated with phone" = (true, 7/10) :=
  assess_feasibility_failure_default timeoutService "Person frustrated with phone" .timeout rfl

/-- C10: if the feasibility reply parses as a valid JSON object but lacks
the 'feasible' or 'confidence' field, the assessor returns False for the
missing 'feasible' and 0.0 for the missing 'confidence' (the `result.get`
defaults), a fail-closed outcome distinct from the fail-open (true, 0.7)
default used when the call or parse raises. -/
theorem assess_feasibility_missing_fields_fail_closed (svc : FeasService) (s : String)
    (obj : FeasObj) (h : svc s = .ok obj) :
    (obj.feasible = none → (assess_generation_feasibility svc s).1 = false) ∧
    (obj.confidence = none → (assess_generation_feasibility svc s).2 = 0) := by
  constructor <;> intro hf <;> simp [assess_generation_feasibility, h, hf]

/-- A feasibility service replying with a well-formed but empty JSON object. -/
def emptyObjService : FeasService := fun _ => .ok ⟨none, none⟩

/-- Witness for C10 at a concrete empty-object reply. -/
theorem assess_feasibility_missing_fields_fail_closed_witness :
    (assess_generation_feasibility emptyObjService "A dog on a beach").1 = false ∧
    (assess_generation_feasibility emptyObjService "A dog on a beach").2 = 0 :=
  ⟨(assess_feasibility_missing_fields_fail_closed emptyObjService "A dog on a beach"
      ⟨none, none⟩ rfl).1 rfl,
   (assess_feasibility_missing_fields_fail_closed emptyObjService "A dog on a beach"
      ⟨none, none⟩ rfl).2 rfl⟩

/-- C6: if the decomposition reply is not valid structured data (malformed
JSON), `parse_script` fails for the whole call: it returns None and the
caller is told the AI response was not in the expected format (the
parse-failure classification). -/
theorem parse_script_malformed_parse_failure (svc : DecompService)
    (script tone fmt : String) (h : svc script tone fmt = .malformed) :
    parse_script svc script tone fmt = ⟨none, some .parseFailure⟩ := by
  simp [parse_script, h]

/-- A decomposition service whose reply is always non-JSON text. -/
def malformedDecompService : DecompService := fun _ _ _ => .malformed

/-- Witness for C6 at a concrete malformed reply. -/
theorem parse_script_malformed_parse_failure_witness :
    parse_script malformedDecompService "Tired of cold calling? Try our app!" "urgent" "UGC" =
      ⟨none, some .parseFailure⟩ :=
  parse_script_malformed_parse_failure malformedDecompService
    "Tired of cold calling? Try our app!" "urgent" "UGC" rfl

/-- Mapping a kept-or-dropped computation over a list embeds the kept
results, in order, into the per-element results. -/
theorem map_some_filterMap_sublist {α β : Type} (f : α → Option β) (l : List α) :
    ((l.filterMap f).map some).Sublist (l.map f) := by
  induction l with
  | nil => simp
  | cons a l ih =>
    cases h : f a with
    | none =>
      simp only [List.map_cons, List.filterMap_cons, h]
      exact ih.cons none
    | some b =>
      simp only [List.map_cons, List.filterMap_cons, h]
      exact ih.cons₂ (some b)

/-- C5: for every input sequence of beat records, `generate_prompts`
returns at most as many BrollPrompts as there are input records, and the
output (wrapped in `some`) is a sublist of the per-beat processing
results in input order: the feasibility gate only removes elements, never
adds, duplicates or reorders them. -/
theorem generate_prompts_length_le_and_order (svc : FeasService)
    (beats_data : List RawBeat) (duration : Option Int) (aspect_ratio : Option String) :
    (generate_prompts svc beats_data duration aspect_ratio).length ≤ beats_data.length ∧
    ((generate_prompts svc beats_data duration aspect_ratio).map some).Sublist
      (beats_data.map (processBeat svc (duration.getD 3) (aspect_ratio.getD "9:16"))) := by
  exact ⟨List.length_filterMap_le _ _, map_some_filterMap_sublist _ _⟩

/-- C1 (amended): for a beat record that passes SceneBeat validation and
an effective duration within the BrollPrompt bounds, the beat is accepted
and produces a BrollPrompt if and only if the Feasibility Assessor
returned feasible = true, a confidence strictly greater than 0.4, AND a
confidence at most 1: a confidence above 1 passes the `> 0.4` gate but
makes the BrollPrompt Field check (`le=1.0`) raise, so the beat is
skipped. -/
theorem generate_prompts_accept_iff_gate (svc : FeasService) (d : Int) (a : String)
    (b : RawBeat) (beat : SceneBeat) (hb : SceneBeat.build b = some beat)
    (hd1 : 1 ≤ d) (hd2 : d ≤ 30) :
    ((processBeat svc d a b).isSome ↔
      ((assess_generation_feasibility svc beat.scene_description).1 = true ∧
       2/5 < (assess_generation_feasibility svc beat.scene_description).2 ∧
       (assess_generation_feasibility svc beat.scene_description).2 ≤ 1)) ∧
    (generate_prompts svc [b] (some d) (some a) ≠ [] ↔
      ((assess_generation_feasibility svc beat.scene_description).1 = true ∧
       2/5 < (assess_generation_feasibility svc beat.scene_description).2 ∧
       (assess_generation_feasibility svc beat.scene_description).2 ≤ 1)) := by
  have hpb : processBeat svc d a b =
      (if (assess_generation_feasibility svc beat.scene_description).1 = true ∧
          2/5 < (assess_generation_feasibility svc beat.scene_description).2 then
        BrollPrompt.build
          (beat.scene_description ++ ", " ++ naturalEmotion beat.emotion ++ ", cinematic")
          d a beat.script_excerpt
          ("Search for: " ++ beat.scene_description ++ " showing "
            ++ naturalEmotion beat.emotion ++ " emotion")
          (some (assess_generation_feasibility svc beat.scene_description).2)
      else none) := by
    unfold processBeat
    rw [hb]
  have key : (processBeat svc d a b).isSome ↔
      ((assess_generation_feasibility svc beat.scene_description).1 = true ∧
       2/5 < (assess_generation_feasibility svc beat.scene_description).2 ∧
       (assess_generation_feasibility svc beat.scene_description).2 ≤ 1) := by
    rw [hpb]
    set r := assess_generation_feasibility svc beat.scene_description with hr
    by_cases hg : r.1 = true ∧ 2/5 < r.2
    · by_cases hc : r.2 ≤ 1
      · have h0 : (0 : ℚ) ≤ r.2 := le_of_lt (lt_trans (by norm_num) hg.2)
        simp [BrollPrompt.build, hg, hg.1, hg.2, hc, h0, hd1, hd2]
      · simp [BrollPrompt.build, hg, hg.1, hg.2, hc, hd1, hd2]
    · rw [if_neg hg]
      simp only [Option.isSome_none, Bool.false_eq_true, false_iff]
      intro hcon
      exact hg ⟨hcon.1, hcon.2.1⟩
  refine ⟨key, ?_⟩
  have h2 : generate_prompts svc [b] (some d) (some a) ≠ [] ↔
      (processBeat svc d a b).isSome := by
    simp only [generate_prompts, Option.getD_some, List.filterMap_cons, List.filterMap_nil]
    cases processBeat svc d a b <;> simp
  exact h2.trans key

/-- A feasibility service replying feasible with an out-of-range
confidence of 2.0. -/
def overconfidentService : FeasService := fun _ => .ok ⟨some true, some 2⟩

/-- A structurally valid beat record. -/
def happyBeat : RawBeat :=
  ⟨some "00:05", some "Happy customer holding product", some "happy", some "Try our app"⟩

/-- The validated form of `happyBeat`. -/
def happySceneBeat : SceneBeat :=
  ⟨"00:05", "Happy customer holding product", "happy", "Try our app"⟩

/-- Counterexample to C1 as stated: the assessor returns feasible = true
with confidence 2.0 > 0.4 for a structurally valid beat, yet
`generate_prompts` emits no BrollPrompt for it (BrollPrompt's
`confidence_score <= 1` check raises and the beat is skipped). -/
theorem gate_passes_but_no_prompt_cex :
    SceneBeat.build happyBeat = some happySceneBeat ∧
    (assess_generation_feasibility overconfidentService "Happy customer holding product").1 = true ∧
    2/5 < (assess_generation_feasibility overconfidentService "Happy customer holding product").2 ∧
    generate_prompts overconfidentService [happyBeat] none none = [] := by
  refine ⟨by decide, rfl, by norm_num [assess_generation_feasibility, overconfidentService], ?_⟩
  have h : SceneBeat.build happyBeat = some happySceneBeat := by decide
  simp [generate_prompts, List.filterMap_cons, processBeat, h, overconfidentService,
    assess_generation_feasibility, BrollPrompt.build, happySceneBeat]

/-- A feasibility service replying feasible with confidence 0.4000001,
just above the threshold. -/
def borderlineService : FeasService := fun _ => .ok ⟨some true, some (4000001/10000000)⟩

/-- A feasibility service replying feasible with confidence exactly 0.4. -/
def exactThresholdService : FeasService := fun _ => .ok ⟨some true, some (2/5)⟩

/-- Witness for C1: a beat with confidence 0.4000001 is accepted, and the
same beat with confidence exactly 0.4 is rejected. -/
theorem generate_prompts_accept_iff_gate_witness :
    (processBeat borderlineService 3 "9:16" happyBeat).isSome ∧
    processBeat exactThresholdService 3 "9:16" happyBeat = none := by
  constructor
  · exact ((generate_prompts_accept_iff_gate borderlineService 3 "9:16" happyBeat
      happySceneBeat (by decide) (by norm_num) (by norm_num)).1).mpr
      ⟨rfl, by norm_num [assess_generation_feasibility, borderlineService, happySceneBeat],
       by norm_num [assess_generation_feasibility, borderlineService, happySceneBeat]⟩
  · have h : SceneBeat.build happyBeat = some happySceneBeat := by decide
    simp [processBeat, h, exactThresholdService, assess_generation_feasibility,
      happySceneBeat]

/-- C4: every BrollPrompt emitted by `generate_prompts` came from some
input beat that passed SceneBeat validation, and its fields are exactly
the composed ones: `prompt` is "{scene_description}, {natural_emotion},
cinematic" and `search_instruction` is "Search for: {scene_description}
showing {natural_emotion} emotion" with the emotion mapped through the
static table; `insert_after` is the beat's `script_excerpt`; `duration`
and `aspect_ratio` are the supplied values (defaulting to 3 and "9:16");
and `confidence_score` is the assessor's confidence. An emotion absent
from the table passes through unchanged. -/
theorem generate_prompts_fields_spec :
    (∀ (svc : FeasService) (dOpt : Option Int) (aOpt : Option String)
       (l : List RawBeat) (p : BrollPrompt), p ∈ generate_prompts svc l dOpt aOpt →
       ∃ b ∈ l, ∃ beat, SceneBeat.build b = some beat ∧
         p.prompt = beat.scene_description ++ ", " ++ naturalEmotion beat.emotion
           ++ ", cinematic" ∧
         p.search_instruction = "Search for: " ++ beat.scene_description ++ " showing "
           ++ naturalEmotion beat.emotion ++ " emotion" ∧
         p.insert_after = beat.script_excerpt ∧
         p.duration = dOpt.getD 3 ∧
         p.aspect_ratio = aOpt.getD "9:16" ∧
         p.confidence_score =
           some (assess_generation_feasibility svc beat.scene_description).2) ∧
    (∀ em, emotion_map.lookup em = none → naturalEmotion em = em) := by
  constructor
  · intro svc dOpt aOpt l p hp
    obtain ⟨b, hbl, hpb⟩ := List.mem_filterMap.mp hp
    refine ⟨b, hbl, ?_⟩
    cases hsb : SceneBeat.build b with
    | none =>
      unfold processBeat at hpb
      rw [hsb] at hpb
      exact absurd hpb (by simp)
    | some beat =>
      have hred : processBeat svc (dOpt.getD 3) (aOpt.getD "9:16") b =
          (if (assess_generation_feasibility svc beat.scene_description).1 = true ∧
              2/5 < (assess_generation_feasibility svc beat.scene_description).2 then
            BrollPrompt.build
              (beat.scene_description ++ ", " ++ naturalEmotion beat.emotion ++ ", cinematic")
              (dOpt.getD 3) (aOpt.getD "9:16") beat.script_excerpt
              ("Search for: " ++ beat.scene_description ++ " showing "
                ++ naturalEmotion beat.emotion ++ " emotion")
              (some (assess_generation_feasibility svc beat.scene_description).2)
          else none) := by
        unfold processBeat
        rw [hsb]
      rw [hred] at hpb
      refine ⟨beat, rfl, ?_⟩
      unfold BrollPrompt.build at hpb
      split_ifs at hpb with hg hd
      simp only [] at hpb
      split_ifs at hpb with hc
      cases hpb
      exact ⟨rfl, rfl, rfl, rfl, rfl, rfl⟩
  · intro em h
    simp [naturalEmotion, h]

/-- A feasibility service for the C4 witness, feasible at confidence 0.9. -/
def niceService : FeasService := fun _ => .ok ⟨some true, some (9/10)⟩

/-- A beat whose emotion, `solution`, is in the normalization table. -/
def solutionBeat : RawBeat :=
  ⟨some "00:10", some "Product reveal close-up", some "solution", some "Try our app today"⟩

/-- Witness for C4: one concrete accepted beat yields the fully composed
BrollPrompt, and the unmapped emotion `happy` passes through unchanged. -/
theorem generate_prompts_fields_spec_witness :
    (∃ b ∈ [solutionBeat], ∃ beat, SceneBeat.build b = some beat ∧
      (⟨"Product reveal close-up, satisfied, cinematic", 3, "9:16", "Try our app today",
        "Search for: Product reveal close-up showing satisfied emotion",
        some (9/10)⟩ : BrollPrompt).prompt =
          beat.scene_description ++ ", " ++ naturalEmotion beat.emotion ++ ", cinematic" ∧
      (⟨"Product reveal close-up, satisfied, cinematic", 3, "9:16", "Try our app today",
        "Search for: Product reveal close-up showing satisfied emotion",
        some (9/10)⟩ : BrollPrompt).search_instruction =
          "Search for: " ++ beat.scene_description ++ " showing "
            ++ naturalEmotion beat.emotion ++ " emotion" ∧
      (⟨"Product reveal close-up, satisfied, cinematic", 3, "9:16", "Try our app today",
        "Search for: Product reveal close-up showing satisfied emotion",
        some (9/10)⟩ : BrollPrompt).insert_after = beat.script_excerpt ∧
      (⟨"Product reveal close-up, satisfied, cinematic", 3, "9:16", "Try our app today",
        "Search for: Product reveal close-up showing satisfied emotion",
        some (9/10)⟩ : BrollPrompt).duration = (none : Option Int).getD 3 ∧
      (⟨"Product reveal close-up, satisfied, cinematic", 3, "9:16", "Try our app today",
        "Search for: Product reveal close-up showing satisfied emotion",
        some (9/10)⟩ : BrollPrompt).aspect_ratio = (none : Option String).getD "9:16" ∧
      (⟨"Product reveal close-up, satisfied, cinematic", 3, "9:16", "Try our app today",
        "Search for: Product reveal close-up showing satisfied emotion",
        some (9/10)⟩ : BrollPrompt).confidence_score =
          some (assess_generation_feasibility niceService beat.scene_description).2) ∧
    naturalEmotion "happy" = "happy" := by
  constructor
  · refine generate_prompts_fields_spec.1 niceService none none [solutionBeat] _ ?_
    have h : SceneBeat.build solutionBeat =
        some ⟨"00:10", "Product reveal close-up", "solution", "Try our app today"⟩ := by decide
    simp [generate_prompts, List.filterMap_cons, processBeat, h, niceService,
      assess_generation_feasibility, BrollPrompt.build, naturalEmotion, emotion_map]
    norm_num
    decide
  · exact generate_prompts_fields_spec.2 "happy" (by decide)

/-- C3 (amended): every SceneBeat returned by `parse_script` has a
non-empty `scene_description` and a timestamp that is non-empty and
contains the ':' separator. The `script_excerpt` field is required to be
present but is NOT checked to be non-empty by the SceneBeat model. -/
theorem parse_script_beats_invariants (svc : DecompService) (script tone fmt : String)
    (bs : List SceneBeat) (sb : SceneBeat)
    (hres : (parse_script svc script tone fmt).beats = some bs) (hmem : sb ∈ bs) :
    sb.scene_description ≠ "" ∧ sb.timestamp ≠ "" ∧ ':' ∈ sb.timestamp.data := by
  unfold parse_script at hres
  cases hsvc : svc script tone fmt with
  | raised => rw [hsvc] at hres; exact absurd hres (by simp)
  | malformed => rw [hsvc] at hres; exact absurd hres (by simp)
  | beats rbs =>
    rw [hsvc] at hres
    have hbs : bs = rbs.filterMap SceneBeat.build := by
      injection hres with h
      exact h.symm
    subst hbs
    obtain ⟨rb, _, hrb⟩ := List.mem_filterMap.mp hmem
    obtain ⟨ts?, sd?, em?, se?⟩ := rb
    unfold SceneBeat.build at hrb
    rcases ts? with _ | ts <;> rcases sd? with _ | sd <;> rcases em? with _ | em <;>
      rcases se? with _ | se <;>
      (try simp only [] at hrb) <;> (try exact Option.noConfusion hrb)
    split_ifs at hrb with hts hsd
    cases hrb
    refine ⟨?_, hts.1, hts.2⟩
    intro he
    have he' : sd = "" := he
    rw [he'] at hsd
    exact absurd hsd (by decide)

/-- A decomposition service for the C3 witness, replying with one
well-formed beat object. -/
def oneBeatService : DecompService :=
  fun _ _ _ => .beats [⟨some "00:10", some "Person saving money fast",
    some "excited", some "Save today"⟩]

/-- Witness for C3 at a concrete decomposition reply. -/
theorem parse_script_beats_invariants_witness :
    (⟨"00:10", "Person saving money fast", "excited", "Save today"⟩ :
        SceneBeat).scene_description ≠ "" ∧
    (⟨"00:10", "Person saving money fast", "excited", "Save today"⟩ :
        SceneBeat).timestamp ≠ "" ∧
    ':' ∈ (⟨"00:10", "Person saving money fast", "excited", "Save today"⟩ :
        SceneBeat).timestamp.data :=
  parse_script_beats_invariants oneBeatService "Tired of cold calling? Try our app!"
    "urgent" "UGC"
    [⟨"00:10", "Person saving money fast", "excited", "Save today"⟩]
    ⟨"00:10", "Person saving money fast", "excited", "Save today"⟩
    (by decide) (by decide)

/-- A beat record whose `script_excerpt` is present but empty. -/
def emptyExcerptBeat : RawBeat :=
  ⟨some "00:00", some "Person frustrated with phone", some "frustrated", some ""⟩

/-- A decomposition service replying with `emptyExcerptBeat`. -/
def emptyExcerptService : DecompService := fun _ _ _ => .beats [emptyExcerptBeat]

/-- Counterexample to C3 as stated: `parse_script` returns a beat whose
`script_excerpt` is the empty string — the SceneBeat model requires the
field to be present but does not require it to be non-empty. -/
theorem parse_script_empty_excerpt_cex :
    (parse_script emptyExcerptService "Tired of cold calling? Try our app!"
        "urgent" "UGC").beats =
      some [⟨"00:00", "Person frustrated with phone", "frustrated", ""⟩] ∧
    (⟨"00:00", "Person frustrated with phone", "frustrated", ""⟩ :
        SceneBeat).script_excerpt = "" := by
  exact ⟨by decide, rfl⟩

/-- C7: construction of an AdScriptInput fails exactly when the script is
empty or whitespace-only, or its character count lies outside the
configured bounds (default minimum 10, maximum 5000), or the tone or
format is not one of the enumerated values; otherwise it succeeds (and
the resulting value, as a pure datum of this development, is never
mutated by any operation of the core). -/
theorem adScriptInput_build_none_iff (script tone fmt : String) :
    AdScriptInput.build script tone fmt = none ↔
      (script.trim = "" ∨ script.length < MIN_SCRIPT_LENGTH ∨
       MAX_SCRIPT_LENGTH < script.length ∨ tone ∉ validTones ∨ fmt ∉ validFormats) := by
  unfold AdScriptInput.build
  split_ifs with h1 h2 h3
  · exact iff_of_true rfl (Or.inl h2)
  · refine iff_of_false (by simp) ?_
    push_neg
    exact ⟨h2, h1.1, h1.2, h3.1, h3.2⟩
  · refine iff_of_true rfl ?_
    rcases not_and_or.mp h3 with h | h
    · exact Or.inr (Or.inr (Or.inr (Or.inl h)))
    · exact Or.inr (Or.inr (Or.inr (Or.inr h)))
  · refine iff_of_true rfl ?_
    rcases not_and_or.mp h1 with h | h
    · exact Or.inr (Or.inl (Nat.not_le.mp h))
    · exact Or.inr (Or.inr (Or.inl (Nat.not_le.mp h)))

/-- C8 (amended): the Feasibility Assessor is a total function — it never
raises or propagates an error, for any behavior of the underlying
service — and its confidence component lies in [0,1] whenever any
confidence carried by a well-formed reply lies in [0,1]; an out-of-range
numeric confidence in the reply, however, is forwarded unchanged rather
than clamped. -/
theorem assess_feasibility_confidence_range (svc : FeasService) (s : String)
    (h : ∀ obj c, svc s = .ok obj → obj.confidence = some c → 0 ≤ c ∧ c ≤ 1) :
    0 ≤ (assess_generation_feasibility svc s).2 ∧
    (assess_generation_feasibility svc s).2 ≤ 1 := by
  cases hs : svc s with
  | failure e =>
    simp only [assess_generation_feasibility, hs]
    norm_num
  | ok obj =>
    cases hc : obj.confidence with
    | none => simp [assess_generation_feasibility, hs, hc]
    | some c =>
      simp only [assess_generation_feasibility, hs, hc, Option.getD_some]
      exact h obj c hs hc

/-- A feasibility service replying feasible with confidence 0.5. -/
def halfService : FeasService := fun _ => .ok ⟨some true, some (1/2)⟩

/-- Witness for C8 at a concrete in-range reply. -/
theorem assess_feasibility_confidence_range_witness :
    0 ≤ (assess_generation_feasibility halfService "Money being saved").2 ∧
    (assess_generation_feasibility halfService "Money being saved").2 ≤ 1 := by
  refine assess_feasibility_confidence_range halfService "Money being saved" ?_
  intro obj c hobj hc
  have hobj' : obj = ⟨some true, some (1/2)⟩ := by
    simpa [halfService] using hobj.symm
  rw [hobj'] at hc
  have hc' : c = 1/2 := by simpa using hc.symm
  rw [hc']
  norm_num

/-- A feasibility service replying feasible with the out-of-range
confidence 2.0. -/
def outOfRangeService : FeasService := fun _ => .ok ⟨some true, some 2⟩

/-- Counterexample to C8 as stated: a well-formed reply carrying the
numeric confidence 2.0 makes the assessor return a float outside [0,1] —
the value is forwarded without clamping. -/
theorem assess_feasibility_out_of_range_cex :
    (assess_generation_feasibility outOfRangeService "Person frustrated with phone").2 = 2 ∧
    ¬ ((assess_generation_feasibility outOfRangeService "Person frustrated with phone").2 ≤ 1) := by
  constructor
  · rfl
  · show ¬ ((2 : ℚ) ≤ 1)
    norm_num

/-- C9: every tone accepted by AdScriptInput construction is absent from
the prompt builder's tone-guidance table (the two enumerations are
disjoint), so for every validly constructed ScriptInput the system prompt
built by `_get_system_prompt` carries no "TONE STRATEGY" addition: it is
exactly the base template followed by the format and examples additions. -/
theorem system_prompt_no_tone_strategy (tone : String) (h : tone ∈ validTones) :
    dr_tone_guidance.lookup tone = none ∧
    ∀ format_type, get_system_prompt tone format_type =
      base_prompt ++ format_addition format_type ++ examples_addition := by
  have hl : dr_tone_guidance.lookup tone = none := by
    fin_cases h <;> decide
  refine ⟨hl, fun ft => ?_⟩
  unfold get_system_prompt tone_addition
  rw [hl]
  simp

/-- Witness for C9 at the concrete valid tone "inspiring" and format "UGC". -/
theorem system_prompt_no_tone_strategy_witness :
    dr_tone_guidance.lookup "inspiring" = none ∧
    get_system_prompt "inspiring" "UGC" =
      base_prompt ++ format_addition "UGC" ++ examples_addition :=
  ⟨(system_prompt_no_tone_strategy "inspiring" (by decide)).1,
   (system_prompt_no_tone_strategy "inspiring" (by decide)).2 "UGC"⟩

end Brollbot
